import Mathlib

/-!
Shallow embedding of the localbloggenius backend (Python/FastAPI/SQLAlchemy)
for verification of its natural-language specification.

Source files embedded:
  app/core/ai.py        (count_tokens, AIService.generate_blog_content)
  app/services/industry.py (IndustryService._categorize_industry)
  app/services/blog.py  (BlogService.create_blog_post, get_blog_stats,
                         _get_or_create_industry, _get_or_create_location)
  app/services/location.py (LocationService.search_locations,
                         _get_place_name, _format_full_name)
  app/services/base.py  (BaseService.get_multi, BaseService.count)

Modelling conventions: Python strings are Lean `String`; Python `in` on
strings is `containsSub`; Python truthiness of an optional string is
`truthy`; SQLAlchemy sessions are explicit `DB` state threaded through the
functions, with each commit reflected immediately in the returned state and
an exception reflected as an `Except`-error return that leaves the committed
state as it was (rollback discards only uncommitted changes); numeric
averages are over `ℚ` with `round(x, 2)` modelled as round-half-to-even at
two decimals.
-/

/-- Python substring test: `needle in hay` on the underlying character
lists (empty needle matches everything, as in Python). -/
def containsSub (needle : List Char) : List Char → Bool
  | [] => decide (needle = [])
  | c :: t => needle.isPrefixOf (c :: t) || containsSub needle t

/-- Python truthiness of `dict.get(key)`: `None` and the empty string are
falsy, every other string is truthy. -/
def truthy : Option String → Bool
  | none => false
  | some s => decide (s ≠ "")

/-- Accumulator pass for `pySplitWs`: `acc` holds the current word
reversed. -/
def splitWsAux : List Char → List Char → List String
  | [], acc => if acc = [] then [] else [String.mk acc.reverse]
  | c :: rest, acc =>
    if c.isWhitespace then
      if acc = [] then splitWsAux rest []
      else String.mk acc.reverse :: splitWsAux rest []
    else splitWsAux rest (c :: acc)

/-- Python `str.split()` with no arguments: split on whitespace runs,
dropping empty pieces. -/
def pySplitWs (s : String) : List String :=
  splitWsAux s.toList []

/-- Accumulator pass for `pySplitOnComma`. -/
def splitOnCharAux (sep : Char) : List Char → List Char → List String
  | [], acc => [String.mk acc.reverse]
  | c :: rest, acc =>
    if c = sep then String.mk acc.reverse :: splitOnCharAux sep rest []
    else splitOnCharAux sep rest (c :: acc)

/-- Python `str.split(",")`: split at every comma, keeping empty pieces
(the empty string yields `[""]`, as in Python). -/
def pySplitOnComma (s : String) : List String :=
  splitOnCharAux ',' s.toList []

/-- Python `a or b` on two optional strings (used for
`address.get("state") or address.get("province")`). -/
def pyOrOpt (a b : Option String) : Option String :=
  if truthy a then a else b

/-- Python `str.lower()`, character by character (the inputs of interest
are ASCII, where Python and Lean lower-casing agree). -/
def pyLower (s : String) : String :=
  String.mk (s.toList.map Char.toLower)

/- ===== app/services/industry.py ===== -/

/-- Keyword list bound to "technology" in `IndustryService.__init__`. -/
def technologyKeywords : List String :=
  ["software", "it", "cybersecurity", "web development",
   "mobile apps", "cloud computing", "artificial intelligence"]

/-- Keyword list bound to "healthcare" in `IndustryService.__init__`. -/
def healthcareKeywords : List String :=
  ["medical", "dental", "pharmacy", "wellness", "fitness",
   "mental health", "healthcare technology"]

/-- Keyword list bound to "retail" in `IndustryService.__init__`. -/
def retailKeywords : List String :=
  ["fashion", "electronics", "groceries", "furniture",
   "e-commerce", "luxury goods", "sporting goods"]

/-- Keyword list bound to "services" in `IndustryService.__init__`. -/
def servicesKeywords : List String :=
  ["consulting", "legal", "accounting", "marketing",
   "design", "cleaning", "maintenance"]

/-- Keyword list bound to "hospitality" in `IndustryService.__init__`. -/
def hospitalityKeywords : List String :=
  ["restaurants", "hotels", "tourism", "events",
   "catering", "travel", "entertainment"]

/-- The `self.categories` mapping of `IndustryService.__init__`, in Python
dict insertion order. -/
def categories : List (String × List String) :=
  [("technology", technologyKeywords),
   ("healthcare", healthcareKeywords),
   ("retail", retailKeywords),
   ("services", servicesKeywords),
   ("hospitality", hospitalityKeywords)]

/-- `IndustryService._categorize_industry`: lower-case the name, return the
first category (dict order) with `any(keyword in name_lower for keyword in
keywords)`, else "other". -/
def _categorize_industry (name : String) : String :=
  let name_lower := pyLower name
  match categories.find?
      (fun ckw => ckw.2.any (fun kw => containsSub kw.toList name_lower.toList)) with
  | some ckw => ckw.1
  | none => "other"

/-- Written from the specification text for the categorizer: lower-case the
name and test the five keyword sets in the fixed order technology,
healthcare, retail, services, hospitality; the first set containing a
keyword that occurs as a substring anywhere in the lower-cased name gives
the category, and "other" is returned when none matches. -/
def specCategorize (name : String) : String :=
  let n := pyLower name
  let hit := fun (kws : List String) => kws.any (fun kw => containsSub kw.toList n.toList)
  if hit technologyKeywords then "technology"
  else if hit healthcareKeywords then "healthcare"
  else if hit retailKeywords then "retail"
  else if hit servicesKeywords then "services"
  else if hit hospitalityKeywords then "hospitality"
  else "other"

/- ===== app/core/ai.py ===== -/

/-- A successful response of `AIService._make_completion_request`: the
fields that `generate_blog_content` reads from the provider response. -/
structure CompletionResponse where
  content : String
  total_tokens : Nat
  finish_reason : String
  deriving Repr, DecidableEq

/-- The dictionary returned by `AIService.generate_blog_content`. -/
structure GenOut where
  content : String
  tokens_used : Nat
  finish_reason : String
  deriving Repr, DecidableEq

/-- `self.max_retries` of `AIService`. -/
def max_retries : Nat := 3

/-- `self.retry_delay` of `AIService` (seconds). -/
def retry_delay : Nat := 1

/-- One step of the `for attempt in range(self.max_retries)` loop of
`AIService.generate_blog_content`. The provider maps the attempt index to
the outcome of `_make_completion_request`. Returns the loop result (`none`
when the loop ends without a return or raise, which Python would turn into
returning `None`), the list of `time.sleep` durations performed, and the
number of provider attempts made. -/
def genAttempts (provider : Nat → Except String CompletionResponse)
    (maxR delay : Nat) : List Nat → Option (Except String GenOut) × List Nat × Nat
  | [] => (none, [], 0)
  | attempt :: rest =>
    match provider attempt with
    | .ok response =>
        (some (.ok { content := response.content,
                     tokens_used := response.total_tokens,
                     finish_reason := response.finish_reason }), [], 1)
    | .error e =>
        if attempt = maxR - 1 then
          (some (.error e), [], 1)
        else
          let r := genAttempts provider maxR delay rest
          (r.1, delay * (attempt + 1) :: r.2.1, r.2.2 + 1)

/-- `AIService.generate_blog_content`, with the provider call abstracted as
a function from attempt index to outcome. -/
def generate_blog_content (provider : Nat → Except String CompletionResponse) :
    Option (Except String GenOut) × List Nat × Nat :=
  genAttempts provider max_retries retry_delay (List.range max_retries)

/-- `count_tokens` of app/core/ai.py: the tokenizer outcome is abstracted
as `none` (tiktoken raised) or `some encoding`; on success the result is
the length of the encoding of the text, on failure the fallback
`len(text.split()) * 1.3` (a float in the source; here exact `ℚ`). -/
def count_tokens (enc : Option (String → List Nat)) (text : String) : ℚ :=
  match enc with
  | some encoding => ((encoding text).length : ℚ)
  | none => ((pySplitWs text).length : ℚ) * (13 / 10)

/- ===== app/models (common.py, blog.py) ===== -/

/-- Row of the `industry` table (app/models/common.py). -/
structure IndustryRow where
  id : Nat
  name : String
  description : Option String := none
  category : Option String := none
  deriving Repr, DecidableEq

/-- Row of the `location` table (app/models/common.py). -/
structure LocationRow where
  id : Nat
  name : String
  state : Option String := none
  country : String
  timezone : Option String := none
  deriving Repr, DecidableEq

/-- Row of the `blogpost` table (app/models/blog.py); the JSON metadata
blob is represented by the `finish_reason` it stores. -/
structure PostRow where
  id : Nat
  industry_id : Nat
  location_id : Nat
  topic : String
  content : String
  style : String
  tokens_used : Nat
  finish_reason : String
  deriving Repr, DecidableEq

/-- Committed state of the relational store. -/
structure DB where
  industries : List IndustryRow := []
  locations : List LocationRow := []
  posts : List PostRow := []
  deriving Repr, DecidableEq

/-- A FastAPI `HTTPException` surfaced to the caller. -/
structure HTTPError where
  status_code : Nat
  detail : String
  deriving Repr, DecidableEq

/- ===== app/services/blog.py ===== -/

/-- `BlogService._get_or_create_industry`: query by exact name; if found
return the row as-is, else insert a row with only `name` populated and
commit (autoincrement id modelled as the current row count). -/
def _get_or_create_industry (db : DB) (name : String) : DB × IndustryRow :=
  match db.industries.find? (fun r => r.name == name) with
  | some industry => (db, industry)
  | none =>
      let industry : IndustryRow := { id := db.industries.length, name := name }
      ({ db with industries := db.industries ++ [industry] }, industry)

/-- `BlogService._get_or_create_location`: query by exact name; if found
return the row as-is, else insert a row with `name` and the default
`country := "Unknown"` and commit. -/
def _get_or_create_location (db : DB) (name : String) : DB × LocationRow :=
  match db.locations.find? (fun r => r.name == name) with
  | some location => (db, location)
  | none =>
      let location : LocationRow :=
        { id := db.locations.length, name := name, country := "Unknown" }
      ({ db with locations := db.locations ++ [location] }, location)

/-- Failure injection for one `create_blog_post` run: whether each step
raises (with the exception text) and the outcome of the internal
`ai_service.generate_blog_content` call. -/
structure Env where
  industryFail : Option String := none
  locationFail : Option String := none
  genResult : Except String GenOut
  insertFail : Option String := none

/-- `BlogService.create_blog_post`: upsert industry, upsert location (each
committing independently), generate content, build the `BlogPost` row, add
and commit. Any exception triggers `db.rollback()` (discarding only
uncommitted changes) and re-raises as `HTTPException(500, detail=str(e))`.
Returns the committed state together with the outcome. -/
def create_blog_post (env : Env) (db : DB)
    (industry_name location_name topic style : String) : DB × Except HTTPError PostRow :=
  match env.industryFail with
  | some e => (db, .error { status_code := 500, detail := e })
  | none =>
    let r1 := _get_or_create_industry db industry_name
    match env.locationFail with
    | some e => (r1.1, .error { status_code := 500, detail := e })
    | none =>
      let r2 := _get_or_create_location r1.1 location_name
      match env.genResult with
      | .error e => (r2.1, .error { status_code := 500, detail := e })
      | .ok generated =>
        let blog_post : PostRow :=
          { id := r2.1.posts.length,
            industry_id := r1.2.id,
            location_id := r2.2.id,
            topic := topic,
            content := generated.content,
            style := style,
            tokens_used := generated.tokens_used,
            finish_reason := generated.finish_reason }
        match env.insertFail with
        | some e => (r2.1, .error { status_code := 500, detail := e })
        | none => ({ r2.1 with posts := r2.1.posts ++ [blog_post] }, .ok blog_post)

/-- Round half to even at integer precision over `ℚ` (Python `round` tie
behaviour). -/
def roundHalfEven (q : ℚ) : ℤ :=
  let fl := ⌊q⌋
  let fr := q - (fl : ℚ)
  if fr < 1 / 2 then fl
  else if 1 / 2 < fr then fl + 1
  else if fl % 2 = 0 then fl else fl + 1

/-- Python `round(x, 2)` over `ℚ`. -/
def pyRound2 (q : ℚ) : ℚ :=
  (roundHalfEven (q * 100) : ℚ) / 100

/-- The `average_tokens` entry computed by `BlogService.get_blog_stats`:
`db.query(func.avg(BlogPost.tokens_used)).scalar() or 0` (SQL AVG is NULL
on an empty table, which `or 0` turns into 0), then `round(float(avg), 2)`. -/
def get_blog_stats_average_tokens (db : DB) : ℚ :=
  let toks := db.posts.map (fun p => (p.tokens_used : ℚ))
  let avg := if toks = [] then 0 else toks.sum / (toks.length : ℚ)
  pyRound2 avg

/-- Written from the specification text for `average_tokens`: the mean of
`tokens_used` across all posts rounded to two decimals, and 0 when no
posts exist. -/
def averageTokensSpec (db : DB) : ℚ :=
  if db.posts = [] then 0
  else pyRound2 ((db.posts.map (fun p => (p.tokens_used : ℚ))).sum / (db.posts.length : ℚ))

/- ===== app/services/location.py ===== -/

/-- The `address` sub-object of a Nominatim result; absent keys are `none`
(a missing `address` dict behaves as every key absent). -/
structure NomAddress where
  city : Option String := none
  town : Option String := none
  village : Option String := none
  suburb : Option String := none
  municipality : Option String := none
  state : Option String := none
  province : Option String := none
  country : Option String := none
  deriving Repr, DecidableEq

/-- One JSON result object of the Nominatim response. -/
structure NomResult where
  address : NomAddress := {}
  display_name : Option String := none
  type : Option String := none
  lat : Option String := none
  lon : Option String := none
  osm_type : Option String := none
  osm_class : Option String := none
  deriving Repr, DecidableEq

/-- The `LocationSuggestion` schema as populated by `search_locations`. -/
structure LocationSuggestion where
  name : String
  full_name : String
  type : String
  metadata : List (String × Option String)
  deriving Repr, DecidableEq

/-- The preference-ordered address components scanned by
`LocationService._get_place_name`. -/
def placeKeys (a : NomAddress) : List (Option String) :=
  [a.city, a.town, a.village, a.suburb, a.municipality]

/-- `LocationService._get_place_name`: first truthy component among city,
town, village, suburb, municipality; else
`result.get("display_name", "").split(",")[0]`. -/
def _get_place_name (r : NomResult) : String :=
  match (placeKeys r.address).find? truthy with
  | some v => v.getD ""
  | none => (pySplitOnComma (r.display_name.getD "")).headD ""

/-- `LocationService._format_full_name`: start from the place name (when
truthy), add `address.get("state") or address.get("province")` when truthy
and not already present, add `address.get("country")` when truthy and not
already present, and join with ", ". -/
def _format_full_name (r : NomResult) : String :=
  let address := r.address
  let parts : List String := []
  let place_name := _get_place_name r
  let parts := if place_name ≠ "" then parts ++ [place_name] else parts
  let state := pyOrOpt address.state address.province
  let parts :=
    if truthy state && !(parts.contains (state.getD "")) then parts ++ [state.getD ""]
    else parts
  let country := address.country
  let parts :=
    if truthy country && !(parts.contains (country.getD "")) then parts ++ [country.getD ""]
    else parts
  String.intercalate ", " parts

/-- Written from the specification text for the suggestion name: the first
present (truthy) address component among city, town, village, suburb,
municipality, else the first comma-separated segment of the display name. -/
def specSuggestionName (r : NomResult) : String :=
  if truthy r.address.city then r.address.city.getD ""
  else if truthy r.address.town then r.address.town.getD ""
  else if truthy r.address.village then r.address.village.getD ""
  else if truthy r.address.suburb then r.address.suburb.getD ""
  else if truthy r.address.municipality then r.address.municipality.getD ""
  else (pySplitOnComma (r.display_name.getD "")).headD ""

/-- Append one optional part, omitting it when absent, empty, or already
present. -/
def dedupAppend (parts : List String) (c : Option String) : List String :=
  match c with
  | none => parts
  | some s => if s = "" ∨ s ∈ parts then parts else parts ++ [s]

/-- Written from the specification text for the suggestion full name: join
the place name, the state/province, and the country with ", ", omitting
any part already present. -/
def specFullName (r : NomResult) : String :=
  String.intercalate ", "
    ([some (specSuggestionName r),
      pyOrOpt r.address.state r.address.province,
      r.address.country].foldl dedupAppend [])

/-- The suggestion built for one Nominatim result inside the list
comprehension of `search_locations`. -/
def mkSuggestion (result : NomResult) : LocationSuggestion :=
  { name := _get_place_name result,
    full_name := _format_full_name result,
    type := result.type.getD "unknown",
    metadata := [("lat", result.lat), ("lon", result.lon),
                 ("osm_type", result.osm_type), ("class", result.osm_class)] }

/-- Outcome of parsing the HTTP body as JSON. -/
inductive JsonBody where
  | malformed
  | parsed (results : List NomResult)
  deriving Repr, DecidableEq

/-- Outcome of the `session.get` call. -/
inductive FetchOutcome where
  | clientError
  | response (status : Nat) (body : JsonBody)
  deriving Repr, DecidableEq

/-- The Python exceptions that can escape the `try` body of
`search_locations`. -/
inductive PyExc where
  | clientError
  | httpExc (status_code : Nat) (detail : String)
  | jsonError
  deriving Repr, DecidableEq

/-- The `try` body of `LocationService.search_locations`: a connectivity
failure raises `aiohttp.ClientError`; a non-200 status raises
`HTTPException(503, "Geocoding service unavailable")`; a body that fails to
parse as JSON raises a decode error; otherwise each result is mapped to a
suggestion. -/
def search_body (fetch : FetchOutcome) : Except PyExc (List LocationSuggestion) :=
  match fetch with
  | .clientError => .error .clientError
  | .response status body =>
    if status ≠ 200 then .error (.httpExc 503 "Geocoding service unavailable")
    else
      match body with
      | .malformed => .error .jsonError
      | .parsed results => .ok (results.map mkSuggestion)

/-- `LocationService.search_locations` including its `except` clauses:
`except aiohttp.ClientError` raises `HTTPException(503, "Error connecting
to geocoding service")`; the following `except Exception` catches
everything else — including the `HTTPException(503)` raised in the body for
a non-200 status, since FastAPI's HTTPException subclasses Exception and
not aiohttp.ClientError — and raises `HTTPException(500, "Error processing
location search")`. -/
def search_locations (fetch : FetchOutcome) : Except HTTPError (List LocationSuggestion) :=
  match search_body fetch with
  | .ok v => .ok v
  | .error .clientError =>
      .error { status_code := 503, detail := "Error connecting to geocoding service" }
  | .error (.httpExc _ _) =>
      .error { status_code := 500, detail := "Error processing location search" }
  | .error .jsonError =>
      .error { status_code := 500, detail := "Error processing location search" }

/- ===== app/services/base.py ===== -/

/-- An ORM row for the generic CRUD helpers, as an attribute/value
association list. -/
abbrev AttrRow : Type := List (String × Int)

/-- `getattr(row, field)` for a field known to exist on the model. -/
def getattrD (r : AttrRow) (field : String) : Int :=
  match r.find? (fun p => p.1 == field) with
  | some p => p.2
  | none => 0

/-- The filter loop shared by `BaseService.get_multi` and
`BaseService.count`: for each (field, value) pair, narrow the query by
equality only when `hasattr(self.model, field)`; unknown fields are
skipped. `attrs` is the attribute list of the model class. -/
def applyFilters (attrs : List String) (filters : List (String × Int))
    (rows : List AttrRow) : List AttrRow :=
  filters.foldl
    (fun q fv =>
      if fv.1 ∈ attrs then q.filter (fun r => getattrD r fv.1 == fv.2) else q)
    rows

/-- `BaseService.get_multi`: apply the filters, then
`.offset(skip).limit(limit).all()`. -/
def get_multi (attrs : List String) (rows : List AttrRow)
    (skip limit : Nat) (filters : List (String × Int)) : List AttrRow :=
  ((applyFilters attrs filters rows).drop skip).take limit

/-- `BaseService.count`: apply the filters, then `.count()`. -/
def count (attrs : List String) (rows : List AttrRow)
    (filters : List (String × Int)) : Nat :=
  (applyFilters attrs filters rows).length

/- ===== Concrete fixtures used by witnesses and examples ===== -/

/-- A stub provider that fails on the first two attempts and succeeds on
the third. -/
def providerFailTwice : Nat → Except String CompletionResponse
  | 0 => .error "e0"
  | 1 => .error "e1"
  | _ => .ok { content := "c", total_tokens := 10, finish_reason := "stop" }

/-- A stub provider that fails on every attempt. -/
def providerAlwaysFail : Nat → Except String CompletionResponse
  | 0 => .error "e0"
  | 1 => .error "e1"
  | _ => .error "e2"

/-- A run environment in which both upserts succeed and the generation
call fails. -/
def envGenFail : Env := { genResult := .error "provider down" }

/-- A run environment in which everything succeeds. -/
def envAllOk : Env :=
  { genResult := .ok { content := "body", tokens_used := 42, finish_reason := "stop" } }

/-- The industry row created by the first upsert of "Bakery" into an empty
store. -/
def bakeryIndustryRow : IndustryRow := { id := 0, name := "Bakery" }

/-- The store after upserting industry "Bakery" into an empty store. -/
def bakeryIndustryDB : DB := { industries := [bakeryIndustryRow] }

/-- The location row created by the first upsert of "Bakery" into an empty
store. -/
def bakeryLocationRow : LocationRow := { id := 0, name := "Bakery", country := "Unknown" }

/-- The store after upserting location "Bakery" into an empty store. -/
def bakeryLocationDB : DB := { locations := [bakeryLocationRow] }

/-- A store holding three posts with token counts 100, 200 and 300. -/
def threePostsDB : DB :=
  { posts :=
      [{ id := 0, industry_id := 0, location_id := 0, topic := "t", content := "a",
         style := "professional", tokens_used := 100, finish_reason := "stop" },
       { id := 1, industry_id := 0, location_id := 0, topic := "t", content := "b",
         style := "professional", tokens_used := 200, finish_reason := "stop" },
       { id := 2, industry_id := 0, location_id := 0, topic := "t", content := "c",
         style := "professional", tokens_used := 300, finish_reason := "stop" }] }

/-- The stubbed Nominatim result of the specification example:
`address.city="Austin"`, `address.state="Texas"`, `address.country="USA"`. -/
def austinResult : NomResult :=
  { address := { city := some "Austin", state := some "Texas", country := some "USA" } }

/-- Fixture model attribute list for the generic CRUD helpers. -/
def fixtureAttrs : List String := ["name", "tokens_used"]

/-- Fixture rows for the generic CRUD helpers. -/
def fixtureRows : List AttrRow :=
  [[("name", 1), ("tokens_used", 100)], [("name", 2), ("tokens_used", 200)]]

/- ===== Theorems ===== -/

/-- Helper: the categorizer agrees with its spec-side description. -/
theorem categorize_eq_spec (name : String) :
    _categorize_industry name = specCategorize name := by
  unfold _categorize_industry specCategorize categories
  cases h1 : technologyKeywords.any
      (fun kw => containsSub kw.toList (pyLower name).toList) <;>
  cases h2 : healthcareKeywords.any
      (fun kw => containsSub kw.toList (pyLower name).toList) <;>
  cases h3 : retailKeywords.any
      (fun kw => containsSub kw.toList (pyLower name).toList) <;>
  cases h4 : servicesKeywords.any
      (fun kw => containsSub kw.toList (pyLower name).toList) <;>
  cases h5 : hospitalityKeywords.any
      (fun kw => containsSub kw.toList (pyLower name).toList) <;>
  simp only [List.find?, h1, h2, h3, h4, h5, if_true, if_false, Bool.false_eq_true,
    ite_true, ite_false, Bool.true_eq_false]

/-- Claim C7: for every input name, the categorization function
lower-cases the name and returns the first category, in the fixed
insertion order of the five-category mapping (technology, healthcare,
retail, services, hospitality), for which some keyword in that category
occurs as a substring anywhere in the lower-cased name, and "other" when
no keyword of any category matches. -/
theorem claim_C7_categorize_first_match (name : String) :
    _categorize_industry name = specCategorize name :=
  categorize_eq_spec name

/-- Claim C2, counterexample: the claim asserts that the categorization
function maps "Family Dentistry" to "healthcare", but no healthcare
keyword (in particular not "dental") occurs as a substring of
"family dentistry", and no other category matches either, so the code
returns "other". -/
theorem claim_C2_counterexample :
    _categorize_industry "Family Dentistry" = "other" ∧
    ¬ _categorize_industry "Family Dentistry" = "healthcare" := by
  constructor
  · decide
  · decide

/-- Claim C2 as amended: the categorization function applied to
"Web Development Studio" returns "technology"; applied to
"Family Dentistry" it returns "other"; applied to "Lemonade Stand" it
returns "other". -/
theorem claim_C2_amended :
    _categorize_industry "Web Development Studio" = "technology" ∧
    _categorize_industry "Family Dentistry" = "other" ∧
    _categorize_industry "Lemonade Stand" = "other" := by
  refine ⟨?_, ?_, ?_⟩ <;> decide

/-- Claim C9: when the model-specific tokenizer succeeds, count_tokens
returns the length of the tokenizer encoding of the text; when it fails,
count_tokens returns the number of whitespace-separated words multiplied
by 1.3 (an approximation — note the result need not be an integer). -/
theorem claim_C9_count_tokens :
    (∀ (encoding : String → List Nat) (text : String),
        count_tokens (some encoding) text = ((encoding text).length : ℚ)) ∧
    (∀ text : String,
        count_tokens none text = ((pySplitWs text).length : ℚ) * (13 / 10)) ∧
    count_tokens none "local blog genius content" = 52 / 10 := by
  refine ⟨fun encoding text => rfl, fun text => rfl, ?_⟩
  have h : pySplitWs "local blog genius content" = ["local", "blog", "genius", "content"] := by
    decide
  rw [count_tokens, h]
  norm_num

/-- Claim C5: average_tokens equals the mean of tokens_used over all Post
rows rounded to 2 decimal places, equals 0 (not an error or null) when no
posts exist, and equals 200 on posts with token counts 100, 200, 300. -/
theorem claim_C5_average_tokens :
    (∀ db : DB, get_blog_stats_average_tokens db = averageTokensSpec db) ∧
    get_blog_stats_average_tokens threePostsDB = 200 ∧
    get_blog_stats_average_tokens {} = 0 := by
  refine ⟨fun db => ?_, ?_, ?_⟩
  · unfold get_blog_stats_average_tokens averageTokensSpec
    by_cases h : db.posts = []
    · simp only [h, List.map_nil, if_pos rfl, if_pos h]
      norm_num [pyRound2, roundHalfEven]
    · have hm : db.posts.map (fun p => ((p.tokens_used : ℚ))) ≠ [] := by
        simpa using h
      simp only [if_neg h, if_neg hm, List.length_map]
  · have h : get_blog_stats_average_tokens threePostsDB = pyRound2 200 := by
      simp [get_blog_stats_average_tokens, threePostsDB]
      norm_num
    rw [h]
    norm_num [pyRound2, roundHalfEven]
  · norm_num [get_blog_stats_average_tokens, pyRound2, roundHalfEven]

/-- Claim C6 evaluation: a connectivity error surfaces as 503 service
unavailable and a malformed body surfaces as the generic 500 processing
error, as claimed — but a non-2xx status (here 404) also surfaces as the
generic 500 processing error, because the HTTPException(503, "Geocoding
service unavailable") raised inside the try body is caught by the broad
except-Exception handler and replaced; the second conjunct shows the 503
that the body raises before it is swallowed. -/
theorem claim_C6_error_surfacing :
    search_locations (.response 404 (.parsed [])) =
      .error { status_code := 500, detail := "Error processing location search" } ∧
    search_body (.response 404 (.parsed [])) =
      .error (.httpExc 503 "Geocoding service unavailable") ∧
    search_locations .clientError =
      .error { status_code := 503, detail := "Error connecting to geocoding service" } ∧
    search_locations (.response 200 .malformed) =
      .error { status_code := 500, detail := "Error processing location search" } := by
  refine ⟨?_, ?_, ?_, ?_⟩ <;> rfl

/-- Claim C1: at most 3 attempts are made; a successful attempt returns
its result (content, tokens_used, finish_reason) immediately with no
further attempts and no further sleeping; after failed attempt k (k = 1 or
2, counted from 1) the client sleeps exactly k seconds before the next
attempt, totalling 3 seconds of sleep when the first two attempts fail;
and when all 3 attempts fail the final failure propagates to the caller. -/
theorem claim_C1_retry_policy (provider : Nat → Except String CompletionResponse) :
    (generate_blog_content provider).2.2 ≤ 3 ∧
    (∀ r, provider 0 = .ok r →
        generate_blog_content provider =
          (some (.ok { content := r.content, tokens_used := r.total_tokens,
                       finish_reason := r.finish_reason }), [], 1)) ∧
    (∀ e r, provider 0 = .error e → provider 1 = .ok r →
        generate_blog_content provider =
          (some (.ok { content := r.content, tokens_used := r.total_tokens,
                       finish_reason := r.finish_reason }), [1], 2)) ∧
    (∀ e0 e1 r, provider 0 = .error e0 → provider 1 = .error e1 → provider 2 = .ok r →
        generate_blog_content provider =
          (some (.ok { content := r.content, tokens_used := r.total_tokens,
                       finish_reason := r.finish_reason }), [1, 2], 3) ∧
        (generate_blog_content provider).2.1.sum = 3) ∧
    (∀ e0 e1 e2, provider 0 = .error e0 → provider 1 = .error e1 → provider 2 = .error e2 →
        generate_blog_content provider = (some (.error e2), [1, 2], 3)) := by
  cases h0 : provider 0 <;> cases h1 : provider 1 <;> cases h2 : provider 2 <;>
    simp [generate_blog_content, genAttempts, max_retries, retry_delay,
      List.range_succ, h0, h1, h2]

/-- Witness for claim C1: concrete run of the retry loop on a stub that
fails twice then succeeds (success returned, sleeps 1 s then 2 s, three
attempts) and on a stub that always fails (final error raised after three
attempts). -/
theorem claim_C1_retry_policy_witness :
    (providerFailTwice 0 = .error "e0" ∧ providerFailTwice 1 = .error "e1" ∧
       providerFailTwice 2 =
         .ok { content := "c", total_tokens := 10, finish_reason := "stop" }) ∧
    generate_blog_content providerFailTwice =
      (some (.ok { content := "c", tokens_used := 10, finish_reason := "stop" }), [1, 2], 3) ∧
    (generate_blog_content providerFailTwice).2.1.sum = 3 ∧
    (providerAlwaysFail 0 = .error "e0" ∧ providerAlwaysFail 1 = .error "e1" ∧
       providerAlwaysFail 2 = .error "e2") ∧
    generate_blog_content providerAlwaysFail = (some (.error "e2"), [1, 2], 3) := by
  obtain ⟨-, -, -, h3, -⟩ := claim_C1_retry_policy providerFailTwice
  obtain ⟨-, -, -, -, g4⟩ := claim_C1_retry_policy providerAlwaysFail
  have hh := h3 "e0" "e1" _ rfl rfl rfl
  exact ⟨⟨rfl, rfl, rfl⟩, hh.1, hh.2, ⟨rfl, rfl, rfl⟩, g4 "e0" "e1" "e2" rfl rfl rfl⟩

/-- Helper: appending a matching element to a list with no match makes it
the found element. -/
theorem find?_append_of_none {α : Type} (p : α → Bool) (l : List α) (a : α)
    (h : l.find? p = none) (ha : p a = true) : (l ++ [a]).find? p = some a := by
  induction l with
  | nil => simp [List.find?, ha]
  | cons x xs ih =>
    rw [List.find?_eq_none] at h
    have hx : p x = false := by
      have := h x (by simp)
      simpa using this
    have hxs : xs.find? p = none := by
      rw [List.find?_eq_none]
      intro y hy
      simpa using h y (by simp [hy])
    simpa [List.find?_cons, hx] using ih hxs

/-- Claim C4: under sequential invocation, for a name with no existing row
of matching name, the industry upsert inserts exactly one new row (only
the name populated) and the location upsert inserts exactly one new row
(the name plus country "Unknown"), each returning the inserted row; a
second call with the same name returns that identical row with no change
to the store — the operations are idempotent. -/
theorem claim_C4_upsert_idempotent (db : DB) (name : String)
    (dbI : DB) (ri : IndustryRow) (dbL : DB) (rl : LocationRow)
    (hInd : db.industries.find? (fun r => r.name == name) = none)
    (hLoc : db.locations.find? (fun r => r.name == name) = none)
    (hI : _get_or_create_industry db name = (dbI, ri))
    (hL : _get_or_create_location db name = (dbL, rl)) :
    (dbI.industries = db.industries ++ [ri] ∧ dbI.locations = db.locations ∧
       dbI.posts = db.posts ∧
       ri.name = name ∧ ri.description = none ∧ ri.category = none ∧
       _get_or_create_industry dbI name = (dbI, ri)) ∧
    (dbL.locations = db.locations ++ [rl] ∧ dbL.industries = db.industries ∧
       dbL.posts = db.posts ∧
       rl.name = name ∧ rl.country = "Unknown" ∧ rl.state = none ∧ rl.timezone = none ∧
       _get_or_create_location dbL name = (dbL, rl)) := by
  rw [_get_or_create_industry, hInd] at hI
  rw [_get_or_create_location, hLoc] at hL
  injection hI with hI1 hI2
  injection hL with hL1 hL2
  subst hI1
  subst hI2
  subst hL1
  subst hL2
  have hfI : (db.industries ++ [{ id := db.industries.length, name := name : IndustryRow }]).find?
      (fun r => r.name == name) = some { id := db.industries.length, name := name } :=
    find?_append_of_none _ _ _ hInd (by simp)
  have hfL : (db.locations ++
        [{ id := db.locations.length, name := name, country := "Unknown" : LocationRow }]).find?
      (fun r => r.name == name) =
      some { id := db.locations.length, name := name, country := "Unknown" } :=
    find?_append_of_none _ _ _ hLoc (by simp)
  refine ⟨⟨rfl, rfl, rfl, rfl, rfl, rfl, ?_⟩, ⟨rfl, rfl, rfl, rfl, rfl, rfl, rfl, ?_⟩⟩
  · rw [_get_or_create_industry]
    simp only [hfI]
  · rw [_get_or_create_location]
    simp only [hfL]

/-- Witness for claim C4: upserting "Bakery" into the empty store inserts
exactly one industry row and one location row, and the second upsert
returns the same rows unchanged. -/
theorem claim_C4_upsert_idempotent_witness :
    (({} : DB).industries.find? (fun r => r.name == "Bakery") = none) ∧
    (({} : DB).locations.find? (fun r => r.name == "Bakery") = none) ∧
    (_get_or_create_industry {} "Bakery" = (bakeryIndustryDB, bakeryIndustryRow)) ∧
    (_get_or_create_location {} "Bakery" = (bakeryLocationDB, bakeryLocationRow)) ∧
    ((bakeryIndustryDB.industries = ({} : DB).industries ++ [bakeryIndustryRow] ∧
        bakeryIndustryDB.locations = ({} : DB).locations ∧
        bakeryIndustryDB.posts = ({} : DB).posts ∧
        bakeryIndustryRow.name = "Bakery" ∧ bakeryIndustryRow.description = none ∧
        bakeryIndustryRow.category = none ∧
        _get_or_create_industry bakeryIndustryDB "Bakery" =
          (bakeryIndustryDB, bakeryIndustryRow)) ∧
      (bakeryLocationDB.locations = ({} : DB).locations ++ [bakeryLocationRow] ∧
        bakeryLocationDB.industries = ({} : DB).industries ∧
        bakeryLocationDB.posts = ({} : DB).posts ∧
        bakeryLocationRow.name = "Bakery" ∧ bakeryLocationRow.country = "Unknown" ∧
        bakeryLocationRow.state = none ∧ bakeryLocationRow.timezone = none ∧
        _get_or_create_location bakeryLocationDB "Bakery" =
          (bakeryLocationDB, bakeryLocationRow))) :=
  ⟨rfl, rfl, rfl, rfl,
    claim_C4_upsert_idempotent {} "Bakery" bakeryIndustryDB bakeryIndustryRow
      bakeryLocationDB bakeryLocationRow rfl rfl rfl rfl⟩

/-- Helper: a filter key the model type does not have contributes nothing,
so removing all pairs with that key leaves the filtered query unchanged. -/
theorem applyFilters_erase_unknown (attrs : List String) (key : String)
    (hk : key ∉ attrs) :
    ∀ (filters : List (String × Int)) (rows : List AttrRow),
      applyFilters attrs filters rows =
        applyFilters attrs (filters.filter (fun p => !(p.1 == key))) rows := by
  intro filters
  induction filters with
  | nil => intro rows; rfl
  | cons fv rest ih =>
    intro rows
    by_cases hfk : fv.1 = key
    · have hmem : fv.1 ∉ attrs := hfk ▸ hk
      simp only [applyFilters, List.foldl_cons, List.filter_cons, hfk, beq_self_eq_true,
        Bool.not_true, Bool.false_eq_true, if_false, if_neg hmem]
      rw [if_neg hk]
      exact ih rows
    · have hbeq : (fv.1 == key) = false := by simpa using hfk
      simp only [applyFilters, List.foldl_cons, List.filter_cons, hbeq, Bool.not_false,
        if_true]
      exact ih _

/-- Helper: when no filter key is an attribute of the model, the filter
loop returns the query untouched. -/
theorem applyFilters_all_unknown (attrs : List String) :
    ∀ (filters : List (String × Int)) (rows : List AttrRow),
      (∀ p ∈ filters, p.1 ∉ attrs) → applyFilters attrs filters rows = rows := by
  intro filters
  induction filters with
  | nil => intro rows _; rfl
  | cons fv rest ih =>
    intro rows h
    have hmem : fv.1 ∉ attrs := h fv (by simp)
    simp only [applyFilters, List.foldl_cons, if_neg hmem]
    exact ih rows (fun p hp => h p (by simp [hp]))

/-- Claim C10: a filter key that is not an attribute of the model type is
silently ignored by get_multi and count — the result equals the result
with that key removed from the filters, and a call whose filter keys are
all unknown behaves exactly like an unfiltered call. -/
theorem claim_C10_unknown_filter_ignored (attrs : List String) (rows : List AttrRow)
    (skip limit : Nat) (filters : List (String × Int)) (key : String) :
    (key ∉ attrs →
      get_multi attrs rows skip limit filters =
        get_multi attrs rows skip limit (filters.filter (fun p => !(p.1 == key))) ∧
      count attrs rows filters =
        count attrs rows (filters.filter (fun p => !(p.1 == key)))) ∧
    ((∀ p ∈ filters, p.1 ∉ attrs) →
      get_multi attrs rows skip limit filters = get_multi attrs rows skip limit [] ∧
      count attrs rows filters = count attrs rows []) := by
  constructor
  · intro hk
    rw [get_multi, get_multi, count, count,
      applyFilters_erase_unknown attrs key hk filters rows]
    exact ⟨rfl, rfl⟩
  · intro h
    rw [get_multi, get_multi, count, count,
      applyFilters_all_unknown attrs filters rows h]
    exact ⟨rfl, rfl⟩

/-- Witness for claim C10: a filter on the unknown key "bogus" over two
concrete rows returns the same result as dropping the key, and the same
result as no filters at all. -/
theorem claim_C10_unknown_filter_ignored_witness :
    ("bogus" ∉ fixtureAttrs) ∧
    (∀ p ∈ [(("bogus", 7) : String × Int)], p.1 ∉ fixtureAttrs) ∧
    (get_multi fixtureAttrs fixtureRows 0 100 [("bogus", 7)] =
       get_multi fixtureAttrs fixtureRows 0 100
         (([(("bogus", 7) : String × Int)]).filter (fun p => !(p.1 == "bogus"))) ∧
     count fixtureAttrs fixtureRows [("bogus", 7)] =
       count fixtureAttrs fixtureRows
         (([(("bogus", 7) : String × Int)]).filter (fun p => !(p.1 == "bogus")))) ∧
    (get_multi fixtureAttrs fixtureRows 0 100 [("bogus", 7)] =
       get_multi fixtureAttrs fixtureRows 0 100 [] ∧
     count fixtureAttrs fixtureRows [("bogus", 7)] = count fixtureAttrs fixtureRows []) := by
  have h := claim_C10_unknown_filter_ignored fixtureAttrs fixtureRows 0 100
    [("bogus", 7)] "bogus"
  exact ⟨by decide, by decide, h.1 (by decide), h.2 (by decide)⟩

/-- Helper: the industry upsert touches neither posts nor locations. -/
theorem goc_industry_preserves (db : DB) (name : String) :
    (_get_or_create_industry db name).1.posts = db.posts ∧
    (_get_or_create_industry db name).1.locations = db.locations := by
  rw [_get_or_create_industry]
  cases db.industries.find? (fun r => r.name == name) <;> exact ⟨rfl, rfl⟩

/-- Helper: the location upsert touches neither posts nor industries. -/
theorem goc_location_preserves (db : DB) (name : String) :
    (_get_or_create_location db name).1.posts = db.posts ∧
    (_get_or_create_location db name).1.industries = db.industries := by
  rw [_get_or_create_location]
  cases db.locations.find? (fun r => r.name == name) <;> exact ⟨rfl, rfl⟩

/-- Helper: after the industry upsert a row with the requested name is
committed. -/
theorem goc_industry_mem (db : DB) (name : String) :
    ∃ r ∈ (_get_or_create_industry db name).1.industries, r.name = name := by
  rw [_get_or_create_industry]
  cases hf : db.industries.find? (fun r => r.name == name) with
  | some row =>
    refine ⟨row, List.mem_of_find?_eq_some hf, ?_⟩
    have := List.find?_some hf
    simpa using this
  | none =>
    exact ⟨{ id := db.industries.length, name := name }, by simp, rfl⟩

/-- Helper: after the location upsert a row with the requested name is
committed. -/
theorem goc_location_mem (db : DB) (name : String) :
    ∃ r ∈ (_get_or_create_location db name).1.locations, r.name = name := by
  rw [_get_or_create_location]
  cases hf : db.locations.find? (fun r => r.name == name) with
  | some row =>
    refine ⟨row, List.mem_of_find?_eq_some hf, ?_⟩
    have := List.find?_some hf
    simpa using this
  | none =>
    exact ⟨{ id := db.locations.length, name := name, country := "Unknown" }, by simp, rfl⟩

/-- Claim C3: whenever any step of create_blog_post fails (industry
upsert, location upsert, content generation or post insert), the in-flight
transaction is rolled back so no partial Post row is left committed, and a
fatal HTTP 500 error is raised to the caller; yet because each upsert
commits independently before the Post is created, the Industry and
Location rows upserted earlier in the same call remain committed when a
later step (here generation) fails. -/
theorem claim_C3_failure_semantics (env : Env) (db : DB)
    (industry_name location_name topic style : String) :
    (∀ e, (create_blog_post env db industry_name location_name topic style).2 = .error e →
        (create_blog_post env db industry_name location_name topic style).1.posts = db.posts ∧
        e.status_code = 500) ∧
    (∀ msg, env.industryFail = none → env.locationFail = none →
        env.genResult = .error msg →
        (create_blog_post env db industry_name location_name topic style).2 =
          .error { status_code := 500, detail := msg } ∧
        (∃ r ∈ (create_blog_post env db industry_name location_name topic style).1.industries,
            r.name = industry_name) ∧
        (∃ r ∈ (create_blog_post env db industry_name location_name topic style).1.locations,
            r.name = location_name)) := by
  obtain ⟨indF, locF, genR, insF⟩ := env
  cases indF <;> cases locF <;> cases genR <;> cases insF <;>
    refine ⟨fun e he => ?_, fun msg h1 h2 h3 => ?_⟩ <;>
    simp_all [create_blog_post, (goc_industry_preserves _ _).1, (goc_industry_preserves _ _).2,
      (goc_location_preserves _ _).1, (goc_location_preserves _ _).2,
      goc_industry_mem, goc_location_mem] <;>
    (subst he; rfl)

/-- Witness for claim C3: a run on the empty store in which generation
fails commits no post, surfaces HTTP 500 with the provider message, and
leaves the upserted "Bakery" industry and "Austin" location committed. -/
theorem claim_C3_failure_semantics_witness :
    ((create_blog_post envGenFail {} "Bakery" "Austin" "Sourdough trends" "casual").2 =
       .error { status_code := 500, detail := "provider down" }) ∧
    envGenFail.industryFail = none ∧ envGenFail.locationFail = none ∧
    envGenFail.genResult = .error "provider down" ∧
    ((create_blog_post envGenFail {} "Bakery" "Austin" "Sourdough trends" "casual").1.posts =
        ({} : DB).posts ∧
      ({ status_code := 500, detail := "provider down" } : HTTPError).status_code = 500) ∧
    (∃ r ∈ (create_blog_post envGenFail {} "Bakery" "Austin"
        "Sourdough trends" "casual").1.industries, r.name = "Bakery") ∧
    (∃ r ∈ (create_blog_post envGenFail {} "Bakery" "Austin"
        "Sourdough trends" "casual").1.locations, r.name = "Austin") := by
  have h := claim_C3_failure_semantics envGenFail {} "Bakery" "Austin"
    "Sourdough trends" "casual"
  have h2 := h.2 "provider down" rfl rfl rfl
  exact ⟨rfl, rfl, rfl, rfl, h.1 _ rfl, h2.2.1, h2.2.2⟩

/-- Helper: the place-name extraction agrees with its spec-side
description (first truthy component, else first comma segment of the
display name). -/
theorem place_name_eq_spec (r : NomResult) :
    _get_place_name r = specSuggestionName r := by
  unfold _get_place_name specSuggestionName placeKeys
  cases h1 : truthy r.address.city <;>
  cases h2 : truthy r.address.town <;>
  cases h3 : truthy r.address.village <;>
  cases h4 : truthy r.address.suburb <;>
  cases h5 : truthy r.address.municipality <;>
  simp only [List.find?, h1, h2, h3, h4, h5, if_true, if_false, ite_true, ite_false,
    Bool.false_eq_true, Bool.true_eq_false]

/-- Helper: one append step of the full-name builder agrees with the
dedup-append of the spec-side description. -/
theorem dedupAppend_eq (parts : List String) (o : Option String) :
    (if truthy o && !(parts.contains (o.getD "")) then parts ++ [o.getD ""] else parts) =
      dedupAppend parts o := by
  cases o with
  | none => rfl
  | some s =>
    by_cases hs : s = ""
    · subst hs
      simp [dedupAppend, truthy]
    · by_cases hp : s ∈ parts
      · simp [dedupAppend, truthy, hs, hp]
      · simp [dedupAppend, truthy, hs, hp]

/-- Helper: the full-name builder agrees with its spec-side description. -/
theorem full_name_eq_spec (r : NomResult) :
    _format_full_name r = specFullName r := by
  unfold _format_full_name specFullName
  rw [place_name_eq_spec]
  simp only [List.foldl_cons, List.foldl_nil]
  rw [dedupAppend_eq, dedupAppend_eq]
  congr 1
  by_cases h : specSuggestionName r = "" <;>
    simp [dedupAppend, h]

/-- Claim C8: the suggestion name is the first present address component
among city, town, village, suburb, municipality, else the first
comma-separated segment of the display name; the full name joins place
name, state/province and country with ", ", omitting any part already
present; and the Austin/Texas/USA fixture yields name "Austin" and full
name "Austin, Texas, USA". -/
theorem claim_C8_suggestion_mapping :
    (∀ r : NomResult, _get_place_name r = specSuggestionName r) ∧
    (∀ r : NomResult, _format_full_name r = specFullName r) ∧
    _get_place_name austinResult = "Austin" ∧
    _format_full_name austinResult = "Austin, Texas, USA" := by
  refine ⟨place_name_eq_spec, full_name_eq_spec, ?_, ?_⟩ <;> decide
